import Mathlib

/-!
Verification of the server-side connection admission core of a QUIC endpoint
(listener lifecycle, packet intake pipeline, reply builders, accept queue) and
of the client TLS session cache side-channel encoding.

The Go source is shallowly embedded: pure functions become Lean functions,
stateful code becomes explicit state passing or a step relation, machine
integers become Nat or Int, fallible code returns Option or Except.
Goroutine-scheduled effects (reply sends, session dispatch) are modelled as
outputs of the intake functions; results of collaborators that are outside the
source excerpt (packet parsing, token decoding, fresh connection id
generation, the wall clock) are passed in as explicit parameters.
-/

namespace quic

/-- A QUIC connection id: an opaque byte string, one Nat per byte. -/
abbrev ConnectionID := List Nat

/-- A QUIC version number (a u32 on the wire). -/
abbrev VersionNumber := Nat

/-- Long-header packet types distinguished by the intake pipeline. -/
inductive PacketType where
  | initial
  | handshake
  | zeroRTT
  | retry
deriving DecidableEq, Repr

/-- Remote socket addresses, distinguishing UDP addresses (which carry an IP
that defaultAcceptToken compares on its own) from other address families. -/
inductive Addr where
  | udp (ip : String) (port : Nat)
  | other (s : String)
deriving DecidableEq, Repr

/-- Source: defaultAcceptToken. For UDP peers only the IP is compared, for
other address families the full string form. -/
def sourceAddrString : Addr → String
  | .udp ip _ => ip
  | .other s => s

/-- Source: protocol.MinInitialPacketSize (1200 bytes). -/
def MinInitialPacketSize : Nat := 1200

/-- Source: protocol.MinConnectionIDLenInitial (8 bytes). -/
def MinConnectionIDLenInitial : Nat := 8

/-- Source: protocol.MaxAcceptQueueSize. Modelled from the spec: default 32. -/
def MaxAcceptQueueSize : Int := 32

/-- Source: protocol.DefaultConnectionIDLength. Modelled from the spec:
server-issued connection ids default to 4 bytes. -/
def DefaultConnectionIDLength : Nat := 4

/-- Modelled from the spec: the built-in supported version list advertised
when the configuration leaves versions empty (protocol.SupportedVersions is
outside the source excerpt). The concrete value is immaterial to the claims. -/
def SupportedVersions : List VersionNumber := [0x51474f54]

/-- Modelled from the spec: protocol.IsSupportedVersion is membership of the
version in the configured supported set. -/
def IsSupportedVersion (versions : List VersionNumber) (v : VersionNumber) : Bool :=
  versions.contains v

/-- Modelled from the spec: protocol.IsValidVersion holds exactly for the
built-in valid QUIC versions (the function is outside the source excerpt). -/
def IsValidVersion (v : VersionNumber) : Bool :=
  SupportedVersions.contains v

/-- Modelled from the spec: per-session handshake deadline default, 10 s
(in nanoseconds, as a Go time.Duration). -/
def DefaultHandshakeTimeout : Nat := 10000000000

/-- Modelled from the spec: idle timeout default, 30 s (in nanoseconds). -/
def DefaultIdleTimeout : Nat := 30000000000

/-- Modelled from the spec: implementation default for the per-stream
receive flow control window. -/
def DefaultMaxReceiveStreamFlowControlWindow : Nat := 524288

/-- Modelled from the spec: implementation default for the per-connection
receive flow control window. -/
def DefaultMaxReceiveConnectionFlowControlWindow : Nat := 1572864

/-- Modelled from the spec: implementation default for peer-initiated
bidirectional streams. -/
def DefaultMaxIncomingStreams : Int := 100

/-- Modelled from the spec: implementation default for peer-initiated
unidirectional streams. -/
def DefaultMaxIncomingUniStreams : Int := 100

/-- Source: protocol.TokenValidity. Modelled from the spec: New-Token
validity 24 h (nanoseconds). -/
def TokenValidity : Nat := 86400000000000

/-- Source: protocol.RetryTokenValidity. Modelled from the spec: Retry token
validity 5 s (nanoseconds). -/
def RetryTokenValidity : Nat := 5000000000

/-- Source: the Token struct handed to the AcceptToken callback
(IsRetryToken, RemoteAddr, SentTime). Times are nanosecond wall-clock Nats. -/
structure Token where
  isRetryToken : Bool
  remoteAddr : String
  sentTime : Nat
deriving DecidableEq, Repr

/-- The type of the AcceptToken callback. The trailing Nat is the current
wall-clock time, the shallow embedding of the call to time.Now inside the
callback. -/
abbrev AcceptTokenFn := Addr → Option Token → Nat → Bool

/-- Source: defaultAcceptToken. A nil token is rejected; an expired token
(now after sentTime + validity) is rejected; otherwise the source address
string must equal the address recorded in the token. -/
def defaultAcceptToken : AcceptTokenFn := fun clientAddr token now =>
  match token with
  | none => false
  | some token =>
    let validity := if token.isRetryToken then RetryTokenValidity else TokenValidity
    if token.sentTime + validity < now then false
    else sourceAddrString clientAddr == token.remoteAddr

/-- Source: the quic.Config struct, restricted to the fields populateConfig
copies. Durations are nanosecond Nats, stream counts are Int (they can be
negative in Go), AcceptToken is an optional callback (nil becomes none). -/
structure Config where
  Versions : List VersionNumber
  HandshakeTimeout : Nat
  MaxIdleTimeout : Nat
  AcceptToken : Option AcceptTokenFn
  KeepAlive : Bool
  MaxReceiveStreamFlowControlWindow : Nat
  MaxReceiveConnectionFlowControlWindow : Nat
  MaxIncomingStreams : Int
  MaxIncomingUniStreams : Int
  ConnectionIDLength : Nat
  StatelessResetKey : List Nat
  TokenStore : Option Unit
  QuicTracer : Option Unit

/-- The Go zero value of the Config struct (what a nil config is replaced
with at the top of populateConfig). -/
def emptyConfig : Config :=
  { Versions := []
    HandshakeTimeout := 0
    MaxIdleTimeout := 0
    AcceptToken := none
    KeepAlive := false
    MaxReceiveStreamFlowControlWindow := 0
    MaxReceiveConnectionFlowControlWindow := 0
    MaxIncomingStreams := 0
    MaxIncomingUniStreams := 0
    ConnectionIDLength := 0
    StatelessResetKey := []
    TokenStore := none
    QuicTracer := none }

/-- Source: populateConfig. A nil config becomes the zero config; empty
versions become the built-in list; zero timeouts and windows become their
defaults; zero stream counts become their defaults and negative ones become
0; the remaining fields are copied. The function builds a fresh Config value
and never mutates its argument (purity is inherent in the embedding). -/
def populateConfig (config : Option Config) : Config :=
  let c := config.getD emptyConfig
  { Versions := if c.Versions.length = 0 then SupportedVersions else c.Versions
    HandshakeTimeout :=
      if c.HandshakeTimeout ≠ 0 then c.HandshakeTimeout else DefaultHandshakeTimeout
    MaxIdleTimeout :=
      if c.MaxIdleTimeout ≠ 0 then c.MaxIdleTimeout else DefaultIdleTimeout
    AcceptToken := c.AcceptToken
    KeepAlive := c.KeepAlive
    MaxReceiveStreamFlowControlWindow :=
      if c.MaxReceiveStreamFlowControlWindow = 0 then
        DefaultMaxReceiveStreamFlowControlWindow
      else c.MaxReceiveStreamFlowControlWindow
    MaxReceiveConnectionFlowControlWindow :=
      if c.MaxReceiveConnectionFlowControlWindow = 0 then
        DefaultMaxReceiveConnectionFlowControlWindow
      else c.MaxReceiveConnectionFlowControlWindow
    MaxIncomingStreams :=
      if c.MaxIncomingStreams = 0 then DefaultMaxIncomingStreams
      else if c.MaxIncomingStreams < 0 then 0
      else c.MaxIncomingStreams
    MaxIncomingUniStreams :=
      if c.MaxIncomingUniStreams = 0 then DefaultMaxIncomingUniStreams
      else if c.MaxIncomingUniStreams < 0 then 0
      else c.MaxIncomingUniStreams
    ConnectionIDLength := c.ConnectionIDLength
    StatelessResetKey := c.StatelessResetKey
    TokenStore := c.TokenStore
    QuicTracer := c.QuicTracer }

/-- Source: populateServerConfig. On top of populateConfig, a zero
connection id length becomes the default length and a nil AcceptToken
becomes defaultAcceptToken. -/
def populateServerConfig (config : Option Config) : Config :=
  let c := populateConfig config
  let c :=
    if c.ConnectionIDLength = 0 then
      { c with ConnectionIDLength := DefaultConnectionIDLength }
    else c
  if c.AcceptToken.isNone then { c with AcceptToken := some defaultAcceptToken }
  else c

/-- Source: the parsed wire.Header fields the intake pipeline reads
(is-long-header flag, packet type, version, connection ids, token bytes). -/
structure Header where
  isLongHeader : Bool
  type : PacketType
  version : VersionNumber
  destConnectionID : ConnectionID
  srcConnectionID : ConnectionID
  token : List Nat
deriving DecidableEq, Repr

/-- Source: receivedPacket, restricted to the fields the server reads (the
raw datagram bytes and the remote address); the pooled buffer is modelled by
the passedOn flag of the handling result. -/
structure ReceivedPacket where
  data : List Nat
  remoteAddr : Addr
deriving DecidableEq, Repr

/-- Source: the token contents returned by tokenGenerator.DecodeToken
(outside the excerpt); handleInitialImpl copies the first three fields into
a Token and keeps the original destination connection id separately. -/
structure TokenContents where
  isRetryToken : Bool
  remoteAddr : String
  sentTime : Nat
  originalDestConnectionID : ConnectionID
deriving DecidableEq, Repr

/-- The session created by createNewSession, recorded by the arguments the
source passes to the newSession factory that the claims mention. -/
structure SessionRecord where
  remoteAddr : Addr
  origDestConnID : ConnectionID
  clientDestConnID : ConnectionID
  destConnID : ConnectionID
  srcConnID : ConnectionID
  version : VersionNumber
deriving DecidableEq, Repr

/-- Modelled from the spec: tokenGenerator.NewRetryToken (outside the
excerpt) mints a token bound to the remote address, the minting time and the
original destination connection id. -/
structure RetryTokenData where
  remoteAddr : Addr
  sentTime : Nat
  origDestConnID : ConnectionID
deriving DecidableEq, Repr

/-- The reply header sendRetry builds (wire.ExtendedHeader restricted to the
fields it sets). -/
structure RetryReplyHeader where
  isLongHeader : Bool
  type : PacketType
  version : VersionNumber
  srcConnectionID : ConnectionID
  destConnectionID : ConnectionID
  token : RetryTokenData
deriving DecidableEq, Repr

/-- Modelled from the spec: handshake.GetRetryIntegrityTag (outside the
excerpt) computes the 16-byte Retry Integrity Tag over the written packet
together with the original destination connection id; the tag is represented
symbolically by exactly those two inputs. -/
structure RetryIntegrityTag where
  packet : RetryReplyHeader
  origDestConnID : ConnectionID
deriving DecidableEq, Repr

/-- The Retry Integrity Tag is 16 bytes long. -/
def RetryIntegrityTagLen : Nat := 16

/-- The full Retry datagram: reply header followed by the integrity tag. -/
structure RetryPacket where
  hdr : RetryReplyHeader
  integrityTag : RetryIntegrityTag
  tagLen : Nat
deriving DecidableEq, Repr

/-- Source: protocol.Perspective. -/
inductive Perspective where
  | client
  | server
deriving DecidableEq, Repr

/-- Source: qerr error codes used by the excerpt. -/
inductive QErrCode where
  | serverBusy
deriving DecidableEq, Repr

/-- Source: wire.ConnectionCloseFrame restricted to the error code that
sendServerBusy sets. -/
structure ConnectionCloseFrame where
  errorCode : QErrCode
deriving DecidableEq, Repr

/-- The Initial packet sendServerBusy builds: the reply header fields, the
single frame of the payload, the AEAD derivation inputs, and the byte
offsets at which sealing and header protection are applied. -/
structure ServerBusyPacket where
  isLongHeader : Bool
  type : PacketType
  version : VersionNumber
  srcConnectionID : ConnectionID
  destConnectionID : ConnectionID
  packetNumberLen : Nat
  frames : List ConnectionCloseFrame
  sealConnID : ConnectionID
  sealPerspective : Perspective
  payloadOffset : Nat
  pnOffset : Nat
  sampleOffset : Nat
  sampleLen : Nat
deriving DecidableEq, Repr

/-- The Version Negotiation datagram. -/
structure VersionNegotiationPacket where
  isLongHeader : Bool
  version : VersionNumber
  destConnectionID : ConnectionID
  srcConnectionID : ConnectionID
  supportedVersions : List VersionNumber
deriving DecidableEq, Repr

/-- A reply datagram scheduled by the intake pipeline, together with the
address it is sent to. Goroutine-spawned sends are modelled as this output
of the handling functions. -/
inductive Reply where
  | versionNegotiation (pkt : VersionNegotiationPacket) (dest : Addr)
  | retry (pkt : RetryPacket) (dest : Addr)
  | serverBusy (pkt : ServerBusyPacket) (dest : Addr)
deriving DecidableEq, Repr

/-- Modelled from the spec: wire.ComposeVersionNegotiation (outside the
excerpt) builds a long-header packet with version 0 whose body lists the
supported versions in order; first argument is the destination connection
id, second the source connection id. -/
def ComposeVersionNegotiation (destConnID srcConnID : ConnectionID)
    (versions : List VersionNumber) : VersionNegotiationPacket :=
  { isLongHeader := true
    version := 0
    destConnectionID := destConnID
    srcConnectionID := srcConnID
    supportedVersions := versions }

/-- Source: sendVersionNegotiationPacket. The destination connection id of
the reply is the source connection id of the offending packet and vice
versa; the body is the configured version list; the datagram goes to the
source address of the packet. -/
def sendVersionNegotiationPacket (p : ReceivedPacket) (hdr : Header)
    (versions : List VersionNumber) : Reply :=
  .versionNegotiation
    (ComposeVersionNegotiation hdr.srcConnectionID hdr.destConnectionID versions)
    p.remoteAddr

/-- Source: sendRetry. Builds a long-header Retry reply carrying a fresh
server connection id as source, the clients source connection id as
destination, the clients offered version, a freshly minted retry token bound
to the remote address and the destination connection id of the incoming
packet, followed by the integrity tag computed with that same connection id.
The fresh connection id produced by GenerateConnectionID is a parameter. -/
def sendRetry (remoteAddr : Addr) (hdr : Header) (connID : ConnectionID)
    (now : Nat) : Reply :=
  let token : RetryTokenData :=
    { remoteAddr := remoteAddr, sentTime := now, origDestConnID := hdr.destConnectionID }
  let replyHdr : RetryReplyHeader :=
    { isLongHeader := true
      type := .retry
      version := hdr.version
      srcConnectionID := connID
      destConnectionID := hdr.srcConnectionID
      token := token }
  .retry
    { hdr := replyHdr
      integrityTag := { packet := replyHdr, origDestConnID := hdr.destConnectionID }
      tagLen := RetryIntegrityTagLen }
    remoteAddr

/-- Source: sendServerBusy. Builds a long-header Initial with packet number
length 4 carrying a single CONNECTION_CLOSE frame with code SERVER_BUSY,
sealed with the Initial AEAD derived from the destination connection id of
the incoming packet (server perspective); header protection uses the 16
sample bytes starting at pnOffset + 4. The number of header bytes written
(payloadOffset in the source) is a parameter, since wire encoding is outside
the excerpt. -/
def sendServerBusy (remoteAddr : Addr) (hdr : Header) (headerLen : Nat) : Reply :=
  let ccf : ConnectionCloseFrame := { errorCode := .serverBusy }
  let packetNumberLen : Nat := 4
  let payloadOffset : Nat := headerLen
  let pnOffset : Nat := payloadOffset - packetNumberLen
  .serverBusy
    { isLongHeader := true
      type := .initial
      version := hdr.version
      srcConnectionID := hdr.destConnectionID
      destConnectionID := hdr.srcConnectionID
      packetNumberLen := packetNumberLen
      frames := [ccf]
      sealConnID := hdr.destConnectionID
      sealPerspective := .server
      payloadOffset := payloadOffset
      pnOffset := pnOffset
      sampleOffset := pnOffset + 4
      sampleLen := 16 }
    remoteAddr

/-- Whether a connection id is registered in the demultiplexer map. -/
def phmContains (m : List (ConnectionID × SessionRecord)) (cid : ConnectionID) : Bool :=
  m.any fun e => e.1 = cid

/-- Modelled from the spec: the session demultiplexer add operation
(packetHandlerManager.Add, outside the excerpt) registers a connection id
and returns false when the id is already present. -/
def phmAdd (m : List (ConnectionID × SessionRecord)) (cid : ConnectionID)
    (sess : SessionRecord) : Bool × List (ConnectionID × SessionRecord) :=
  if phmContains m cid then (false, m) else (true, (cid, sess) :: m)

/-- The session registered under a connection id, if any. -/
def phmLookup (m : List (ConnectionID × SessionRecord)) (cid : ConnectionID) :
    Option SessionRecord :=
  (m.find? fun e => e.1 = cid).map (fun e => e.2)

/-- Source: baseServer, restricted to the state the intake pipeline touches:
the populated config, the demultiplexer registrations, and the atomic
accept-queue counter. -/
structure BaseServer where
  config : Config
  handlers : List (ConnectionID × SessionRecord)
  sessionQueueLen : Int
  acceptEarlySessions : Bool

/-- The AcceptToken callback of a config; populateServerConfig always sets
the field, so for every populated config this is exactly that callback. -/
def configAcceptToken (c : Config) : AcceptTokenFn :=
  c.AcceptToken.getD defaultAcceptToken

/-- Source: the newSession factory call inside createNewSession, recorded
as the session record built from the arguments the source passes. -/
def mkSession (remoteAddr : Addr)
    (origDestConnID clientDestConnID destConnID srcConnID : ConnectionID)
    (version : VersionNumber) : SessionRecord :=
  { remoteAddr := remoteAddr
    origDestConnID := origDestConnID
    clientDestConnID := clientDestConnID
    destConnID := destConnID
    srcConnID := srcConnID
    version := version }

/-- Source: createNewSession. Builds the session, registers it under the
client-chosen destination connection id first (discarding the session when
that registration reports a duplicate), then under the server-chosen source
connection id (result ignored, as in the source), and returns the session.
The source dispatches the packet and spawns the accept handoff only after
this returns, so both registrations precede dispatch. -/
def createNewSession (s : BaseServer) (remoteAddr : Addr)
    (origDestConnID clientDestConnID destConnID srcConnID : ConnectionID)
    (version : VersionNumber) : BaseServer × Option SessionRecord :=
  let sess : SessionRecord :=
    mkSession remoteAddr origDestConnID clientDestConnID destConnID srcConnID version
  let r1 := phmAdd s.handlers clientDestConnID sess
  if r1.1 = false then (s, none)
  else
    let r2 := phmAdd r1.2 srcConnID sess
    ({ s with handlers := r2.2 }, some sess)

/-- Results of collaborators outside the excerpt that handleInitialImpl
consults, passed as parameters: the outcome of DecodeToken on the packets
token, the fresh connection ids produced by GenerateConnectionID on the
retry path and the session path, the number of header bytes the server-busy
reply writes, and the current wall-clock time. -/
structure InitialEnv where
  decodeToken : Option TokenContents
  retryConnID : ConnectionID
  sessionConnID : ConnectionID
  busyHeaderLen : Nat
  now : Nat
deriving DecidableEq, Repr

/-- Source: handleInitialImpl lines decoding the token. DecodeToken runs
only when the header carries a token; a decode failure is treated as no
token. -/
def decodedTokenFor (hdr : Header) (env : InitialEnv) : Option TokenContents :=
  if 0 < hdr.token.length then env.decodeToken else none

/-- The Token value handed to the AcceptToken callback. -/
def tokenFor (hdr : Header) (env : InitialEnv) : Option Token :=
  (decodedTokenFor hdr env).map fun c =>
    { isRetryToken := c.isRetryToken, remoteAddr := c.remoteAddr, sentTime := c.sentTime }

/-- The original destination connection id recovered from a decoded retry
token (zero value when absent, as in the source). -/
def origDestConnIDFor (hdr : Header) (env : InitialEnv) : ConnectionID :=
  match decodedTokenFor hdr env with
  | some c => c.originalDestConnectionID
  | none => []

/-- The outcome of handleInitialImpl: the post state, the session created
(if any), the session the packet is dispatched to via handlePacket (the
dispatch happens after createNewSession has returned), and the scheduled
reply (if any). -/
structure InitialResult where
  state : BaseServer
  session : Option SessionRecord
  dispatchTo : Option SessionRecord
  reply : Option Reply

/-- Source: handleInitialImpl. Checks the connection id length when no token
is present; decodes the token; rejects via a Retry reply when the AcceptToken
callback refuses; rejects via a server-busy reply when the atomically read
accept-queue counter is at least MaxAcceptQueueSize; otherwise creates the
session and dispatches the packet to it. -/
def handleInitialImpl (s : BaseServer) (p : ReceivedPacket) (hdr : Header)
    (env : InitialEnv) : Except String InitialResult :=
  if hdr.token.length = 0 ∧ hdr.destConnectionID.length < MinConnectionIDLenInitial then
    .error "too short connection ID"
  else if configAcceptToken s.config p.remoteAddr (tokenFor hdr env) env.now = false then
    .ok { state := s, session := none, dispatchTo := none,
          reply := some (sendRetry p.remoteAddr hdr env.retryConnID env.now) }
  else if MaxAcceptQueueSize ≤ s.sessionQueueLen then
    .ok { state := s, session := none, dispatchTo := none,
          reply := some (sendServerBusy p.remoteAddr hdr env.busyHeaderLen) }
  else
    let r := createNewSession s p.remoteAddr (origDestConnIDFor hdr env)
      hdr.destConnectionID hdr.srcConnectionID env.sessionConnID hdr.version
    .ok { state := r.1, session := r.2, dispatchTo := r.2, reply := none }

/-- The session component of a handleInitialImpl outcome (none on error). -/
def initialSession : Except String InitialResult → Option SessionRecord
  | .error _ => none
  | .ok r => r.session

/-- The outcome of handlePacketImpl: post state, created session, dispatch
target, scheduled reply, and the boolean the function returns (true when the
packet buffer ownership moved to a session). -/
structure HandleResult where
  state : BaseServer
  session : Option SessionRecord
  dispatchTo : Option SessionRecord
  reply : Option Reply
  passedOn : Bool

/-- The result of every drop path: state unchanged, nothing scheduled,
false returned. -/
def dropResult (s : BaseServer) : HandleResult :=
  { state := s, session := none, dispatchTo := none, reply := none, passedOn := false }

/-- Source: handlePacketImpl. Drops datagrams shorter than
MinInitialPacketSize, unparseable headers, short-header packets; schedules a
Version Negotiation for unsupported versions; drops non-Initial long
headers; otherwise runs handleInitialImpl (errors and nil sessions drop the
packet, a created session takes ownership of the buffer). The parse result
of wire.ParsePacket (outside the excerpt) is a parameter. -/
def handlePacketImpl (s : BaseServer) (p : ReceivedPacket)
    (parseResult : Option Header) (env : InitialEnv) : HandleResult :=
  if p.data.length < MinInitialPacketSize then dropResult s
  else
    match parseResult with
    | none => dropResult s
    | some hdr =>
      if hdr.isLongHeader = false then dropResult s
      else if IsSupportedVersion s.config.Versions hdr.version = false then
        { state := s, session := none, dispatchTo := none,
          reply := some (sendVersionNegotiationPacket p hdr s.config.Versions),
          passedOn := false }
      else if hdr.isLongHeader = true ∧ hdr.type ≠ .initial then dropResult s
      else
        match handleInitialImpl s p hdr env with
        | .error _ => dropResult s
        | .ok r =>
          match r.session with
          | none =>
            { state := r.state, session := r.session, dispatchTo := r.dispatchTo,
              reply := r.reply, passedOn := false }
          | some _ =>
            { state := r.state, session := r.session, dispatchTo := r.dispatchTo,
              reply := r.reply, passedOn := true }

/-- Source: the run loop releases the packet buffer exactly when
handlePacketImpl returns false. -/
def runReleasesBuffer (r : HandleResult) : Bool := !r.passedOn

/-- Source: the tls.Config fields the listener reads; NextProtos lists the
advertised ALPN application protocols. -/
structure TLSConfig where
  nextProtos : List String
deriving DecidableEq, Repr

/-- Source: listen. Fails when the tls config is nil; populates the config;
fails when some configured version is invalid; otherwise constructs the
server state. The multiplexer AddConn and NewTokenGenerator collaborators
(outside the excerpt) fail only for environmental reasons and are modelled
as succeeding. Note the source performs no check of the ALPN protocols. -/
def listen (tlsConf : Option TLSConfig) (config : Option Config)
    (acceptEarly : Bool) : Except String BaseServer :=
  match tlsConf with
  | none => .error "quic: tls.Config not set"
  | some _ =>
    let config := populateServerConfig config
    match config.Versions.find? (fun v => IsValidVersion v = false) with
    | some _ => .error "is not a valid QUIC version"
    | none =>
      .ok { config := config, handlers := [], sessionQueueLen := 0,
            acceptEarlySessions := acceptEarly }

/-- Whether an Except value is a success. -/
def exceptIsOk {ε α : Type} : Except ε α → Bool
  | .ok _ => true
  | .error _ => false

/-- The listener state relevant to the accept queue and the lifecycle:
the closed flag and serverError (mutex-guarded in the source), sids of
sessions admitted by handleInitialImpl whose handshake has not finished,
sids of sessions offered on the rendezvous sessionQueue and not yet
consumed, and the atomic sessionQueueLen counter. -/
structure ListenerTS where
  closed : Bool
  serverError : Option String
  pending : List Nat
  offered : List Nat
  counter : Int
  nextSid : Nat
deriving DecidableEq, Repr

/-- The listener state right after listen returns. -/
def initialListener : ListenerTS :=
  { closed := false, serverError := none, pending := [], offered := [],
    counter := 0, nextSid := 0 }

/-- Events of the listener transition system. Each event names a source
code path; see the step function for the mapping. -/
inductive Event where
  | newConn
  | handshakeComplete (sid : Nat)
  | handshakeFail (sid : Nat)
  | offerWithdrawn (sid : Nat)
  | acceptSession (sid : Nat)
  | acceptError
  | close
  | fatalError (e : String)
deriving DecidableEq, Repr

/-- One step of the listener transition system; none when the event is not
enabled. The mapping to the source:
newConn is handleInitialImpl passing the queue check (the atomically loaded
counter is below MaxAcceptQueueSize) and createNewSession spawning a
handleNewSession task for a fresh session — note the counter is NOT
incremented here;
handshakeComplete is handleNewSession observing readiness: it increments the
counter and offers the session on the rendezvous channel (modelled as one
event, the granularity of the spec);
handshakeFail is handleNewSession observing the session context done before
readiness and returning without touching the counter;
offerWithdrawn is the session context becoming done while the offer is
pending: handleNewSession decrements the counter and discards;
acceptSession is accept receiving from sessionQueue and decrementing the
counter — a Go select chooses among its ready cases without priority, so
this event stays enabled when a session is offered even after Close has
closed the error channel;
acceptError is accept returning through the closed error channel;
close is Close: idempotent, sets serverError to the default message when no
error was recorded, closes the error channel;
fatalError is setCloseError. -/
def step (st : ListenerTS) : Event → Option ListenerTS
  | .newConn =>
    if st.counter < MaxAcceptQueueSize then
      some { st with pending := st.nextSid :: st.pending, nextSid := st.nextSid + 1 }
    else none
  | .handshakeComplete sid =>
    if sid ∈ st.pending then
      some { st with pending := st.pending.erase sid, offered := sid :: st.offered,
                     counter := st.counter + 1 }
    else none
  | .handshakeFail sid =>
    if sid ∈ st.pending then some { st with pending := st.pending.erase sid } else none
  | .offerWithdrawn sid =>
    if sid ∈ st.offered then
      some { st with offered := st.offered.erase sid, counter := st.counter - 1 }
    else none
  | .acceptSession sid =>
    if sid ∈ st.offered then
      some { st with offered := st.offered.erase sid, counter := st.counter - 1 }
    else none
  | .acceptError => if st.closed then some st else none
  | .close =>
    if st.closed then some st
    else some { st with closed := true,
                        serverError := some (st.serverError.getD "server closed") }
  | .fatalError e =>
    if st.closed then some st
    else some { st with closed := true, serverError := some e }

/-- Run a list of events from a state; none when some event is refused. -/
def runTrace (st : ListenerTS) : List Event → Option ListenerTS
  | [] => some st
  | e :: es =>
    match step st e with
    | none => none
    | some st2 => runTrace st2 es

/-- The reachable states of the listener transition system. -/
inductive Reachable : ListenerTS → Prop
  | init : Reachable initialListener
  | next {st st2 : ListenerTS} {e : Event} :
      Reachable st → step st e = some st2 → Reachable st2

/-- A trace admitting 33 sessions while the counter is still 0 (each
admission check sees counter below the maximum) whose handshakes then all
complete. -/
def overflowTrace : List Event :=
  List.replicate 33 Event.newConn ++ (List.range 33).map Event.handshakeComplete

/-- A trace that admits one session, completes its handshake (the handoff
task is now blocked offering it on the rendezvous channel), then closes the
listener. -/
def acceptAfterCloseTrace : List Event :=
  [Event.newConn, Event.handshakeComplete 0, Event.close]

/-- The listener state right after a Close on the fresh listener. -/
def closedListener : ListenerTS :=
  { closed := true, serverError := some "server closed", pending := [],
    offered := [], counter := 0, nextSid := 0 }

/-- The listener state reached by acceptAfterCloseTrace: closed, with
session 0 still offered on the rendezvous channel. -/
def closedWithOffer : ListenerTS :=
  { closed := true, serverError := some "server closed", pending := [],
    offered := [0], counter := 1, nextSid := 1 }

/-- Fixtures for concrete witnesses. -/
def testRemote : Addr := .udp "192.0.2.1" 4433

/-- An AcceptToken callback admitting every packet. -/
def acceptAllTokens : AcceptTokenFn := fun _ _ _ => true

/-- A populated config whose AcceptToken admits everything. -/
def testServerConfig : Config :=
  { populateServerConfig none with AcceptToken := some acceptAllTokens }

/-- A server with the admit-everything config and empty state. -/
def testServer : BaseServer :=
  { config := testServerConfig, handlers := [], sessionQueueLen := 0,
    acceptEarlySessions := false }

/-- A server with the default populated config (whose defaultAcceptToken
rejects a packet carrying no token). -/
def retryTestServer : BaseServer :=
  { config := populateServerConfig none, handlers := [], sessionQueueLen := 0,
    acceptEarlySessions := false }

/-- A server whose accept-queue counter has reached the maximum. -/
def busyTestServer : BaseServer :=
  { config := testServerConfig, handlers := [], sessionQueueLen := 32,
    acceptEarlySessions := false }

/-- A well-formed Initial header with a supported version, an 8-byte
destination connection id and no token. -/
def testHeader : Header :=
  { isLongHeader := true, type := .initial, version := 0x51474f54,
    destConnectionID := [1, 2, 3, 4, 5, 6, 7, 8],
    srcConnectionID := [9, 10, 11, 12], token := [] }

/-- A long header carrying an unsupported version. -/
def vnTestHeader : Header :=
  { testHeader with version := 0x1a2a3a4a }

/-- A 1200-byte datagram. -/
def testPacket : ReceivedPacket :=
  { data := List.replicate 1200 0, remoteAddr := testRemote }

/-- An 1199-byte datagram, one byte below the Initial minimum. -/
def shortPacket : ReceivedPacket :=
  { data := List.replicate 1199 0, remoteAddr := testRemote }

/-- A concrete environment: no decodable token, fixed fresh connection ids
of the default length, some header length, some clock value. -/
def testEnv : InitialEnv :=
  { decodeToken := none, retryConnID := [21, 22, 23, 24],
    sessionConnID := [31, 32, 33, 34], busyHeaderLen := 40, now := 1000 }

end quic

namespace handshake

/-- Source: clientSessionStateRevision. -/
def clientSessionStateRevision : Nat := 1

/-- Source: clientSessionState with its nonce field; the remaining fields of
the TLS session state, which the byte-aliasing in the source copies
verbatim (the source asserts tls, qtls and internal session state structs
are layout-identical), are collapsed into one opaque rest component. -/
structure clientSessionState where
  nonce : List Nat
  rest : List Nat
deriving DecidableEq, Repr

/-- Source: the nonceField struct serialized into the ticket nonce. -/
structure nonceField where
  Nonce : List Nat
  AppData : List Nat
  RTT : Int
deriving DecidableEq, Repr

/-- Modelled from the spec: the length encoding of the DER codec model for
the nonceField (encoding/asn1 is outside this repository); a deterministic
base-128 varint with continuation bit. -/
def encLen (n : Nat) : List Nat :=
  if h : n < 128 then [n] else (n % 128 + 128) :: encLen (n / 128)
termination_by n
decreasing_by
  exact Nat.div_lt_self (by omega) (by omega)

/-- Decoder of encLen; returns the decoded length and the remaining bytes. -/
def decLen : List Nat → Option (Nat × List Nat)
  | [] => none
  | b :: rest =>
    if b < 128 then some (b, rest)
    else
      match decLen rest with
      | some (m, rest2) => some (b - 128 + 128 * m, rest2)
      | none => none

/-- Length-prefixed byte-string encoding (the OCTET STRING of the DER
codec model). -/
def encodeBytes (bs : List Nat) : List Nat := encLen bs.length ++ bs

/-- Decoder of encodeBytes. -/
def decodeBytes (l : List Nat) : Option (List Nat × List Nat) :=
  match decLen l with
  | none => none
  | some (n, rest) =>
    if n ≤ rest.length then some (rest.take n, rest.drop n) else none

/-- Sign-and-magnitude integer encoding (the INTEGER of the DER codec
model). -/
def encodeInt (i : Int) : List Nat :=
  if i < 0 then 1 :: encLen i.natAbs else 0 :: encLen i.toNat

/-- Decoder of encodeInt. -/
def decodeInt (l : List Nat) : Option (Int × List Nat) :=
  match l with
  | [] => none
  | s :: rest =>
    match decLen rest with
    | none => none
    | some (n, rest2) =>
      if s = 0 then some ((n : Int), rest2)
      else if s = 1 then some (-(n : Int), rest2)
      else none

/-- Modelled from the spec: asn1.Marshal of the nonceField (a deterministic
DER-style encoding of the three components in order). -/
def asn1Marshal (nf : nonceField) : List Nat :=
  encodeBytes nf.Nonce ++ (encodeBytes nf.AppData ++ encodeInt nf.RTT)

/-- Modelled from the spec: asn1.Unmarshal of the nonceField; returns the
decoded value and the unconsumed rest (the source requires the rest to be
empty). -/
def asn1Unmarshal (l : List Nat) : Option (nonceField × List Nat) :=
  match decodeBytes l with
  | none => none
  | some (nonce, l1) =>
    match decodeBytes l1 with
    | none => none
    | some (appData, l2) =>
      match decodeInt l2 with
      | none => none
      | some (rtt, rest) => some ({ Nonce := nonce, AppData := appData, RTT := rtt }, rest)

/-- Source: binary.BigEndian.PutUint32. -/
def putUint32BE (n : Nat) : List Nat :=
  [n / 16777216 % 256, n / 65536 % 256, n / 256 % 256, n % 256]

/-- Source: binary.BigEndian.Uint32 of the first four bytes. -/
def beUint32 : List Nat → Nat
  | a :: b :: c :: d :: _ => ((a * 256 + b) * 256 + c) * 256 + d
  | _ => 0

/-- The state around the clientSessionCache: the wrapped inner
tls.ClientSessionCache (an association list, newest entry first; a key may
map to a stored nil, as Put stores nil sessions), the application data
store behind the getAppData and setAppData closures, the smoothed RTT read
from rttStats, and the initial RTT written by rttStats.SetInitialRTT. -/
structure ClientSessionCacheModel where
  entries : List (String × Option clientSessionState)
  appData : List Nat
  smoothedRTT : Int
  initialRTT : Option Int
deriving DecidableEq, Repr

/-- Lookup in the inner cache: none when the key is absent (found = false),
some v when present (found = true, v possibly a stored nil). -/
def cacheLookup (entries : List (String × Option clientSessionState))
    (key : String) : Option (Option clientSessionState) :=
  (entries.find? fun e => e.1 = key).map (fun e => e.2)

/-- Source: Put. A nil session is stored as such. Otherwise the stored
session is the given one with its nonce replaced by the 4-byte big-endian
revision tag followed by the ASN.1 DER encoding of the original nonce, the
application data and the smoothed RTT in nanoseconds; the remaining session
state is copied verbatim. -/
def Put (c : ClientSessionCacheModel) (sessionKey : String)
    (cs : Option clientSessionState) : ClientSessionCacheModel :=
  match cs with
  | none => { c with entries := (sessionKey, none) :: c.entries }
  | some cs =>
    let data := asn1Marshal { Nonce := cs.nonce, AppData := c.appData, RTT := c.smoothedRTT }
    let nonce := putUint32BE clientSessionStateRevision ++ data
    { c with entries := (sessionKey, some { cs with nonce := nonce }) :: c.entries }

/-- Source: Get. Misses and stored-nil entries are passed through with the
found flag of the inner cache; a stored session whose nonce is shorter than
4 bytes, whose revision tag differs from the current revision, or whose DER
payload fails to decode exactly yields (nil, false); otherwise the
application data is delivered via setAppData, the original nonce is
restored, the initial RTT is set, and the session is returned as found. -/
def Get (c : ClientSessionCacheModel) (sessionKey : String) :
    ClientSessionCacheModel × Option clientSessionState × Bool :=
  match cacheLookup c.entries sessionKey with
  | none => (c, none, false)
  | some none => (c, none, true)
  | some (some session) =>
    if session.nonce.length < 4 then (c, none, false)
    else if beUint32 session.nonce ≠ clientSessionStateRevision then (c, none, false)
    else
      match asn1Unmarshal (session.nonce.drop 4) with
      | none => (c, none, false)
      | some (nf, rest) =>
        if rest ≠ [] then (c, none, false)
        else
          ({ c with appData := nf.AppData, initialRTT := some nf.RTT },
           some { session with nonce := nf.Nonce }, true)

/-- Fixture: a cache with some application data and smoothed RTT. -/
def c10Cache : ClientSessionCacheModel :=
  { entries := [], appData := [5, 6], smoothedRTT := 7, initialRTT := none }

/-- Fixture: a session state to store. -/
def c10Session : clientSessionState := { nonce := [9, 8], rest := [1, 2, 3] }

/-- Fixture: a cache holding an entry with a 1-byte nonce. -/
def badNonceCache : ClientSessionCacheModel :=
  { entries := [("k", some { nonce := [0], rest := [] })],
    appData := [], smoothedRTT := 0, initialRTT := none }

/-- Fixture: a cache holding an entry with revision tag 2. -/
def badRevisionCache : ClientSessionCacheModel :=
  { entries := [("k", some { nonce := [0, 0, 0, 2], rest := [] })],
    appData := [], smoothedRTT := 0, initialRTT := none }

/-- Fixture: a cache holding an entry whose DER payload is malformed. -/
def badDerCache : ClientSessionCacheModel :=
  { entries := [("k", some { nonce := [0, 0, 0, 1, 255], rest := [] })],
    appData := [], smoothedRTT := 0, initialRTT := none }

end handshake

/-- Helper: populateServerConfig on a non-nil config is populateConfig with
the connection id length and AcceptToken defaulting applied on top. -/
theorem populateServerConfig_some_eq (c : quic.Config) :
    quic.populateServerConfig (some c) =
      { quic.populateConfig (some c) with
        ConnectionIDLength :=
          if c.ConnectionIDLength = 0 then quic.DefaultConnectionIDLength
          else c.ConnectionIDLength
        AcceptToken :=
          if c.AcceptToken.isNone then some quic.defaultAcceptToken
          else c.AcceptToken } := by
  have hcid : (quic.populateConfig (some c)).ConnectionIDLength = c.ConnectionIDLength := rfl
  have hat : (quic.populateConfig (some c)).AcceptToken = c.AcceptToken := rfl
  unfold quic.populateServerConfig
  by_cases h1 : c.ConnectionIDLength = 0 <;> by_cases h2 : c.AcceptToken.isNone <;>
    simp [hcid, hat, h1, h2]
  rw [← hcid, ← hat]

/-- Claim C9: populateServerConfig is a pure defaulting function. For every
input (including nil, modelled as none) it returns a fully-defaulted config
without mutating the caller-supplied config (the embedding is a pure
function of its argument): an empty versions list becomes the built-in
supported list, zero timeouts and windows become their defaults, a zero
connection id length becomes the default length, a nil AcceptToken becomes
defaultAcceptToken, and negative stream counts become 0. -/
theorem populateServerConfig_defaults :
    quic.populateServerConfig none = quic.populateServerConfig (some quic.emptyConfig) ∧
    ∀ c : quic.Config,
      (quic.populateServerConfig (some c)).Versions =
        (if c.Versions = [] then quic.SupportedVersions else c.Versions) ∧
      (quic.populateServerConfig (some c)).HandshakeTimeout =
        (if c.HandshakeTimeout = 0 then quic.DefaultHandshakeTimeout else c.HandshakeTimeout) ∧
      (quic.populateServerConfig (some c)).MaxIdleTimeout =
        (if c.MaxIdleTimeout = 0 then quic.DefaultIdleTimeout else c.MaxIdleTimeout) ∧
      (quic.populateServerConfig (some c)).MaxReceiveStreamFlowControlWindow =
        (if c.MaxReceiveStreamFlowControlWindow = 0 then
          quic.DefaultMaxReceiveStreamFlowControlWindow
         else c.MaxReceiveStreamFlowControlWindow) ∧
      (quic.populateServerConfig (some c)).MaxReceiveConnectionFlowControlWindow =
        (if c.MaxReceiveConnectionFlowControlWindow = 0 then
          quic.DefaultMaxReceiveConnectionFlowControlWindow
         else c.MaxReceiveConnectionFlowControlWindow) ∧
      (quic.populateServerConfig (some c)).ConnectionIDLength =
        (if c.ConnectionIDLength = 0 then quic.DefaultConnectionIDLength
         else c.ConnectionIDLength) ∧
      (quic.populateServerConfig (some c)).AcceptToken =
        (if c.AcceptToken.isNone then some quic.defaultAcceptToken else c.AcceptToken) ∧
      (quic.populateServerConfig (some c)).MaxIncomingStreams =
        (if c.MaxIncomingStreams = 0 then quic.DefaultMaxIncomingStreams
         else if c.MaxIncomingStreams < 0 then 0
         else c.MaxIncomingStreams) ∧
      (quic.populateServerConfig (some c)).MaxIncomingUniStreams =
        (if c.MaxIncomingUniStreams = 0 then quic.DefaultMaxIncomingUniStreams
         else if c.MaxIncomingUniStreams < 0 then 0
         else c.MaxIncomingUniStreams) := by
  constructor
  · rfl
  · intro c
    rw [populateServerConfig_some_eq]
    refine ⟨?_, ?_, ?_, ?_, ?_, ?_, ?_, ?_, ?_⟩
    · show (if c.Versions.length = 0 then quic.SupportedVersions else c.Versions) = _
      by_cases hv : c.Versions = []
      · simp [hv]
      · have hl : ¬c.Versions.length = 0 := fun h => hv (List.length_eq_zero.mp h)
        simp [hv, hl]
    · show (if c.HandshakeTimeout ≠ 0 then c.HandshakeTimeout
            else quic.DefaultHandshakeTimeout) = _
      by_cases h : c.HandshakeTimeout = 0 <;> simp [h]
    · show (if c.MaxIdleTimeout ≠ 0 then c.MaxIdleTimeout
            else quic.DefaultIdleTimeout) = _
      by_cases h : c.MaxIdleTimeout = 0 <;> simp [h]
    · rfl
    · rfl
    · rfl
    · rfl
    · rfl
    · rfl

/-- Helper: taking the length of the left part of an append returns it. -/
theorem listTakeAppend {α : Type} (l1 l2 : List α) : (l1 ++ l2).take l1.length = l1 := by
  induction l1 with
  | nil => rfl
  | cons a t ih => simp [ih]

/-- Helper: dropping the length of the left part of an append. -/
theorem listDropAppend {α : Type} (l1 l2 : List α) : (l1 ++ l2).drop l1.length = l2 := by
  induction l1 with
  | nil => rfl
  | cons a t ih => simp [ih]

/-- Helper: the length decoder inverts the length encoder on any prefix. -/
theorem decLen_encLen (n : Nat) (r : List Nat) :
    handshake.decLen (handshake.encLen n ++ r) = some (n, r) := by
  induction n using Nat.strong_induction_on with
  | _ n ih =>
    rw [handshake.encLen]
    by_cases h : n < 128
    · simp [h, handshake.decLen]
    · have h2 : ¬(n % 128 + 128 < 128) := by omega
      have h3 : n / 128 < n := Nat.div_lt_self (by omega) (by omega)
      simp only [dif_neg h, List.cons_append, handshake.decLen, if_neg h2, ih (n / 128) h3]
      have h4 : n % 128 + 128 - 128 + 128 * (n / 128) = n := by omega
      rw [h4]

/-- Helper: the byte-string decoder inverts the encoder on any prefix. -/
theorem decodeBytes_encodeBytes (bs r : List Nat) :
    handshake.decodeBytes (handshake.encodeBytes bs ++ r) = some (bs, r) := by
  unfold handshake.encodeBytes handshake.decodeBytes
  rw [List.append_assoc, decLen_encLen]
  simp [listTakeAppend, listDropAppend]

/-- Helper: the integer decoder inverts the encoder on any prefix. -/
theorem decodeInt_encodeInt (i : Int) (r : List Nat) :
    handshake.decodeInt (handshake.encodeInt i ++ r) = some (i, r) := by
  unfold handshake.encodeInt handshake.decodeInt
  by_cases h : i < 0
  · simp only [if_pos h, List.cons_append, decLen_encLen]
    simp only [if_neg (by omega : ¬(1 : Nat) = 0), if_pos rfl]
    simp only [Option.some.injEq, Prod.mk.injEq, and_true, if_pos trivial]
    omega
  · simp only [if_neg h, List.cons_append, decLen_encLen, if_pos rfl]
    have h5 : (i.toNat : Int) = i := Int.toNat_of_nonneg (by omega)
    simp [h5]

/-- Helper: the nonceField decoder inverts the encoder on any prefix. -/
theorem asn1_roundtrip (nf : handshake.nonceField) (r : List Nat) :
    handshake.asn1Unmarshal (handshake.asn1Marshal nf ++ r) = some (nf, r) := by
  have h : handshake.asn1Marshal nf ++ r =
      handshake.encodeBytes nf.Nonce ++
        (handshake.encodeBytes nf.AppData ++ (handshake.encodeInt nf.RTT ++ r)) := by
    simp [handshake.asn1Marshal, List.append_assoc]
  unfold handshake.asn1Unmarshal
  rw [h, decodeBytes_encodeBytes]
  simp only [decodeBytes_encodeBytes, decodeInt_encodeInt]

/-- Claim C10: the client session cache round-trips its side-channel
encoding. Put stores a session whose nonce is the 4-byte big-endian revision
tag (value 1) followed by the DER encoding of the original nonce, the
application data and the RTT in nanoseconds; a subsequent Get of that entry
restores the original nonce, delivers the stored application data via
setAppData, sets the initial RTT, and returns the session as found; and Get
returns (nil, false) for any cached entry whose nonce is shorter than 4
bytes, whose revision tag differs, or whose DER payload fails to decode
exactly. -/
theorem client_session_cache_roundtrip (c : handshake.ClientSessionCacheModel)
    (key : String) (cs : handshake.clientSessionState) :
    handshake.cacheLookup (handshake.Put c key (some cs)).entries key =
      some (some { cs with
        nonce := handshake.putUint32BE handshake.clientSessionStateRevision ++
          handshake.asn1Marshal
            { Nonce := cs.nonce, AppData := c.appData, RTT := c.smoothedRTT } }) ∧
    handshake.Get (handshake.Put c key (some cs)) key =
      ({ handshake.Put c key (some cs) with
         appData := c.appData, initialRTT := some c.smoothedRTT },
       some cs, true) ∧
    (∀ (c2 : handshake.ClientSessionCacheModel) (k2 : String)
       (sess2 : handshake.clientSessionState),
      handshake.cacheLookup c2.entries k2 = some (some sess2) →
      (sess2.nonce.length < 4 ∨
       handshake.beUint32 sess2.nonce ≠ handshake.clientSessionStateRevision ∨
       handshake.asn1Unmarshal (sess2.nonce.drop 4) = none ∨
       (∃ nf rest, handshake.asn1Unmarshal (sess2.nonce.drop 4) = some (nf, rest) ∧
         rest ≠ [])) →
      handshake.Get c2 k2 = (c2, none, false)) := by
  have hlook : handshake.cacheLookup (handshake.Put c key (some cs)).entries key =
      some (some { cs with
        nonce := handshake.putUint32BE handshake.clientSessionStateRevision ++
          handshake.asn1Marshal
            { Nonce := cs.nonce, AppData := c.appData, RTT := c.smoothedRTT } }) := by
    simp [handshake.Put, handshake.cacheLookup, List.find?]
  refine ⟨hlook, ?_, ?_⟩
  · have hdata : handshake.asn1Unmarshal
        ((handshake.putUint32BE handshake.clientSessionStateRevision ++
          handshake.asn1Marshal
            { Nonce := cs.nonce, AppData := c.appData, RTT := c.smoothedRTT }).drop 4) =
        some ({ Nonce := cs.nonce, AppData := c.appData, RTT := c.smoothedRTT }, []) := by
      have h1 : (handshake.putUint32BE handshake.clientSessionStateRevision ++
          handshake.asn1Marshal
            { Nonce := cs.nonce, AppData := c.appData, RTT := c.smoothedRTT }).drop 4 =
          handshake.asn1Marshal
            { Nonce := cs.nonce, AppData := c.appData, RTT := c.smoothedRTT } := rfl
      rw [h1]
      have h2 := asn1_roundtrip
        { Nonce := cs.nonce, AppData := c.appData, RTT := c.smoothedRTT } []
      rwa [List.append_nil] at h2
    unfold handshake.Get
    rw [hlook]
    simp only [hdata]
    simp [handshake.putUint32BE, handshake.beUint32, handshake.clientSessionStateRevision]
  · intro c2 k2 sess2 hl2 hbad
    unfold handshake.Get
    rw [hl2]
    rcases hbad with hlt | hrev | hdec | ⟨nf, rest, hdec, hne⟩
    · simp [hlt]
    · by_cases hl : sess2.nonce.length < 4 <;> simp [hl, hrev]
    · by_cases hl : sess2.nonce.length < 4
      · simp [hl]
      · by_cases hr : handshake.beUint32 sess2.nonce = handshake.clientSessionStateRevision <;>
          simp [hl, hr, hdec]
    · by_cases hl : sess2.nonce.length < 4
      · simp [hl]
      · by_cases hr : handshake.beUint32 sess2.nonce = handshake.clientSessionStateRevision <;>
          simp [hl, hr, hdec, hne]

/-- Witness for C10 at concrete inputs: the round trip restores the stored
session, application data and RTT, and each malformed-entry shape yields
(nil, false). -/
theorem client_session_cache_roundtrip_witness :
    handshake.Get (handshake.Put handshake.c10Cache "k" (some handshake.c10Session)) "k" =
      ({ handshake.Put handshake.c10Cache "k" (some handshake.c10Session) with
         appData := handshake.c10Cache.appData,
         initialRTT := some handshake.c10Cache.smoothedRTT },
       some handshake.c10Session, true) ∧
    handshake.Get handshake.badNonceCache "k" = (handshake.badNonceCache, none, false) ∧
    handshake.Get handshake.badRevisionCache "k" =
      (handshake.badRevisionCache, none, false) ∧
    handshake.Get handshake.badDerCache "k" = (handshake.badDerCache, none, false) :=
  ⟨(client_session_cache_roundtrip handshake.c10Cache "k" handshake.c10Session).2.1,
   (client_session_cache_roundtrip handshake.c10Cache "k" handshake.c10Session).2.2
     handshake.badNonceCache "k" { nonce := [0], rest := [] } (by decide)
     (Or.inl (by decide)),
   (client_session_cache_roundtrip handshake.c10Cache "k" handshake.c10Session).2.2
     handshake.badRevisionCache "k" { nonce := [0, 0, 0, 2], rest := [] } (by decide)
     (Or.inr (Or.inl (by decide))),
   (client_session_cache_roundtrip handshake.c10Cache "k" handshake.c10Session).2.2
     handshake.badDerCache "k" { nonce := [0, 0, 0, 1, 255], rest := [] } (by decide)
     (Or.inr (Or.inr (Or.inl (by decide))))⟩

/-- Helper: membership in a demultiplexer map with one more entry. -/
theorem phmContains_cons (m : List (quic.ConnectionID × quic.SessionRecord))
    (a : quic.ConnectionID × quic.SessionRecord) (cid : quic.ConnectionID) :
    quic.phmContains (a :: m) cid = (decide (a.1 = cid) || quic.phmContains m cid) := by
  simp [quic.phmContains]

/-- Helper: lookup finds a newly inserted entry. -/
theorem phmLookup_cons_self (m : List (quic.ConnectionID × quic.SessionRecord))
    (cid : quic.ConnectionID) (sess : quic.SessionRecord) :
    quic.phmLookup ((cid, sess) :: m) cid = some sess := by
  simp [quic.phmLookup]

/-- Helper: lookup skips an entry with a different id. -/
theorem phmLookup_cons_ne (m : List (quic.ConnectionID × quic.SessionRecord))
    (a cid : quic.ConnectionID) (sess : quic.SessionRecord) (h : a ≠ cid) :
    quic.phmLookup ((a, sess) :: m) cid = quic.phmLookup m cid := by
  simp [quic.phmLookup, List.find?, h]

/-- Helper: adding an unregistered id succeeds. -/
theorem phmAdd_not_contains (m : List (quic.ConnectionID × quic.SessionRecord))
    (cid : quic.ConnectionID) (sess : quic.SessionRecord)
    (h : quic.phmContains m cid = false) :
    quic.phmAdd m cid sess = (true, (cid, sess) :: m) := by
  unfold quic.phmAdd
  rw [h]
  rfl

/-- Helper: adding a registered id is refused and leaves the map unchanged. -/
theorem phmAdd_contains (m : List (quic.ConnectionID × quic.SessionRecord))
    (cid : quic.ConnectionID) (sess : quic.SessionRecord)
    (h : quic.phmContains m cid = true) :
    quic.phmAdd m cid sess = (false, m) := by
  unfold quic.phmAdd
  rw [h]
  rfl

/-- Helper: createNewSession on a duplicate client connection id discards
the session and changes nothing. -/
theorem createNewSession_dup (s : quic.BaseServer) (ra : quic.Addr)
    (o cid dcid scid : quic.ConnectionID) (v : quic.VersionNumber)
    (h : quic.phmContains s.handlers cid = true) :
    quic.createNewSession s ra o cid dcid scid v = (s, none) := by
  simp [quic.createNewSession, phmAdd_contains _ _ _ h]

/-- Helper: createNewSession on a fresh client connection id registers the
session under it and then runs the second registration on the extended map. -/
theorem createNewSession_fresh (s : quic.BaseServer) (ra : quic.Addr)
    (o cid dcid scid : quic.ConnectionID) (v : quic.VersionNumber)
    (h : quic.phmContains s.handlers cid = false) :
    quic.createNewSession s ra o cid dcid scid v =
      ({ s with handlers :=
          (quic.phmAdd ((cid, quic.mkSession ra o cid dcid scid v) :: s.handlers)
            scid (quic.mkSession ra o cid dcid scid v)).2 },
       some (quic.mkSession ra o cid dcid scid v)) := by
  simp [quic.createNewSession, phmAdd_not_contains _ _ _ h]

/-- Helper: when the destination connection id is already registered,
handleInitialImpl never yields a session, whichever branch it takes. -/
theorem initialSession_none_of_contains (s : quic.BaseServer)
    (p : quic.ReceivedPacket) (hdr : quic.Header) (env : quic.InitialEnv)
    (h : quic.phmContains s.handlers hdr.destConnectionID = true) :
    quic.initialSession (quic.handleInitialImpl s p hdr env) = none := by
  unfold quic.handleInitialImpl
  split
  · rfl
  · split
    · rfl
    · split
      · rfl
      · simp [quic.initialSession, createNewSession_dup _ _ _ _ _ _ _ h]

/-- Claim C1: for every Initial that passes the accept-token and queue
checks, createNewSession registers the new session under the client-chosen
destination connection id first and then under the freshly generated server
source connection id, both before the packet is dispatched via handlePacket
(the dispatch target is produced only after createNewSession has installed
both registrations in the post state); if the first registration reports a
duplicate, the session is discarded, no registration occurs, and the packet
is dropped; hence for two Initials with the same client destination
connection id at most one session is ever created and registered. -/
theorem createNewSession_registers_before_dispatch
    (s : quic.BaseServer) (p : quic.ReceivedPacket) (hdr : quic.Header)
    (env : quic.InitialEnv)
    (hlen : ¬(hdr.token.length = 0 ∧
      hdr.destConnectionID.length < quic.MinConnectionIDLenInitial))
    (hacc : quic.configAcceptToken s.config p.remoteAddr (quic.tokenFor hdr env)
      env.now = true)
    (hq : ¬quic.MaxAcceptQueueSize ≤ s.sessionQueueLen)
    (hfresh : quic.phmContains s.handlers env.sessionConnID = false) :
    (quic.phmContains s.handlers hdr.destConnectionID = false →
      ∃ sess r, quic.handleInitialImpl s p hdr env = .ok r ∧
        r.session = some sess ∧ r.dispatchTo = some sess ∧ r.reply = none ∧
        quic.phmLookup r.state.handlers hdr.destConnectionID = some sess ∧
        quic.phmLookup r.state.handlers env.sessionConnID = some sess ∧
        sess.clientDestConnID = hdr.destConnectionID ∧
        sess.srcConnID = env.sessionConnID ∧
        (∀ (p2 : quic.ReceivedPacket) (hdr2 : quic.Header) (env2 : quic.InitialEnv),
          hdr2.destConnectionID = hdr.destConnectionID →
          quic.initialSession (quic.handleInitialImpl r.state p2 hdr2 env2) = none)) ∧
    (quic.phmContains s.handlers hdr.destConnectionID = true →
      quic.handleInitialImpl s p hdr env =
        .ok { state := s, session := none, dispatchTo := none, reply := none }) := by
  have hbranch : quic.handleInitialImpl s p hdr env =
      .ok { state := (quic.createNewSession s p.remoteAddr
              (quic.origDestConnIDFor hdr env) hdr.destConnectionID
              hdr.srcConnectionID env.sessionConnID hdr.version).1,
            session := (quic.createNewSession s p.remoteAddr
              (quic.origDestConnIDFor hdr env) hdr.destConnectionID
              hdr.srcConnectionID env.sessionConnID hdr.version).2,
            dispatchTo := (quic.createNewSession s p.remoteAddr
              (quic.origDestConnIDFor hdr env) hdr.destConnectionID
              hdr.srcConnectionID env.sessionConnID hdr.version).2,
            reply := none } := by
    unfold quic.handleInitialImpl
    rw [if_neg hlen, hacc, if_neg (by decide : ¬(true = false)), if_neg hq]
  constructor
  · intro hnew
    have hcns := createNewSession_fresh s p.remoteAddr (quic.origDestConnIDFor hdr env)
      hdr.destConnectionID hdr.srcConnectionID env.sessionConnID hdr.version hnew
    rw [hcns] at hbranch
    refine ⟨quic.mkSession p.remoteAddr (quic.origDestConnIDFor hdr env)
      hdr.destConnectionID hdr.srcConnectionID env.sessionConnID hdr.version,
      _, hbranch, rfl, rfl, rfl, ?_, ?_, rfl, rfl, ?_⟩
    · show quic.phmLookup
        (quic.phmAdd ((hdr.destConnectionID, quic.mkSession p.remoteAddr
            (quic.origDestConnIDFor hdr env) hdr.destConnectionID
            hdr.srcConnectionID env.sessionConnID hdr.version) :: s.handlers)
          env.sessionConnID (quic.mkSession p.remoteAddr
            (quic.origDestConnIDFor hdr env) hdr.destConnectionID
            hdr.srcConnectionID env.sessionConnID hdr.version)).2
        hdr.destConnectionID =
        some (quic.mkSession p.remoteAddr (quic.origDestConnIDFor hdr env)
          hdr.destConnectionID hdr.srcConnectionID env.sessionConnID hdr.version)
      by_cases hsc : env.sessionConnID = hdr.destConnectionID
      · have hin : quic.phmContains
            ((hdr.destConnectionID, quic.mkSession p.remoteAddr
              (quic.origDestConnIDFor hdr env) hdr.destConnectionID
              hdr.srcConnectionID env.sessionConnID hdr.version) :: s.handlers)
            env.sessionConnID = true := by
          rw [phmContains_cons, hfresh, hsc]
          simp
        rw [phmAdd_contains _ _ _ hin]
        exact phmLookup_cons_self _ _ _
      · have hout : quic.phmContains
            ((hdr.destConnectionID, quic.mkSession p.remoteAddr
              (quic.origDestConnIDFor hdr env) hdr.destConnectionID
              hdr.srcConnectionID env.sessionConnID hdr.version) :: s.handlers)
            env.sessionConnID = false := by
          rw [phmContains_cons, hfresh]
          simp [Ne.symm hsc]
        rw [phmAdd_not_contains _ _ _ hout]
        rw [phmLookup_cons_ne _ _ _ _ hsc]
        exact phmLookup_cons_self _ _ _
    · show quic.phmLookup
        (quic.phmAdd ((hdr.destConnectionID, quic.mkSession p.remoteAddr
            (quic.origDestConnIDFor hdr env) hdr.destConnectionID
            hdr.srcConnectionID env.sessionConnID hdr.version) :: s.handlers)
          env.sessionConnID (quic.mkSession p.remoteAddr
            (quic.origDestConnIDFor hdr env) hdr.destConnectionID
            hdr.srcConnectionID env.sessionConnID hdr.version)).2
        env.sessionConnID =
        some (quic.mkSession p.remoteAddr (quic.origDestConnIDFor hdr env)
          hdr.destConnectionID hdr.srcConnectionID env.sessionConnID hdr.version)
      by_cases hsc : env.sessionConnID = hdr.destConnectionID
      · have hin : quic.phmContains
            ((hdr.destConnectionID, quic.mkSession p.remoteAddr
              (quic.origDestConnIDFor hdr env) hdr.destConnectionID
              hdr.srcConnectionID env.sessionConnID hdr.version) :: s.handlers)
            env.sessionConnID = true := by
          rw [phmContains_cons, hfresh, hsc]
          simp
        rw [phmAdd_contains _ _ _ hin, hsc]
        exact phmLookup_cons_self _ _ _
      · have hout : quic.phmContains
            ((hdr.destConnectionID, quic.mkSession p.remoteAddr
              (quic.origDestConnIDFor hdr env) hdr.destConnectionID
              hdr.srcConnectionID env.sessionConnID hdr.version) :: s.handlers)
            env.sessionConnID = false := by
          rw [phmContains_cons, hfresh]
          simp [Ne.symm hsc]
        rw [phmAdd_not_contains _ _ _ hout]
        exact phmLookup_cons_self _ _ _
    · intro p2 hdr2 env2 hsame
      apply initialSession_none_of_contains
      show quic.phmContains
        (quic.phmAdd ((hdr.destConnectionID, quic.mkSession p.remoteAddr
            (quic.origDestConnIDFor hdr env) hdr.destConnectionID
            hdr.srcConnectionID env.sessionConnID hdr.version) :: s.handlers)
          env.sessionConnID (quic.mkSession p.remoteAddr
            (quic.origDestConnIDFor hdr env) hdr.destConnectionID
            hdr.srcConnectionID env.sessionConnID hdr.version)).2
        hdr2.destConnectionID = true
      rw [hsame]
      unfold quic.phmAdd
      split <;> simp [phmContains_cons]
  · intro hdup
    rw [hbranch, createNewSession_dup _ _ _ _ _ _ _ hdup]

/-- Witness for C1 at concrete inputs: a fresh empty server, an accepting
config, a well-formed Initial, and an empty queue. -/
theorem createNewSession_registers_before_dispatch_witness :
    ∃ sess r,
      quic.handleInitialImpl quic.testServer quic.testPacket quic.testHeader
        quic.testEnv = .ok r ∧
      r.session = some sess ∧ r.dispatchTo = some sess ∧ r.reply = none ∧
      quic.phmLookup r.state.handlers quic.testHeader.destConnectionID = some sess ∧
      quic.phmLookup r.state.handlers quic.testEnv.sessionConnID = some sess ∧
      sess.clientDestConnID = quic.testHeader.destConnectionID ∧
      sess.srcConnID = quic.testEnv.sessionConnID ∧
      (∀ (p2 : quic.ReceivedPacket) (hdr2 : quic.Header) (env2 : quic.InitialEnv),
        hdr2.destConnectionID = quic.testHeader.destConnectionID →
        quic.initialSession (quic.handleInitialImpl r.state p2 hdr2 env2) = none) :=
  (createNewSession_registers_before_dispatch quic.testServer quic.testPacket
    quic.testHeader quic.testEnv (by decide) (by decide) (by decide) (by decide)).1
    (by decide)

/-- Claim C2: for every Initial (reaching the token check) for which the
configured AcceptToken predicate returns false, no session is created and a
Retry reply is scheduled whose header is a long header of type Retry with
the clients offered version, a freshly generated server connection id of
the configured length as source, the clients source connection id as
destination, and a freshly minted retry token bound to the remote address
and the clients destination connection id, followed by the 16-byte Retry
Integrity Tag computed over the packet with the clients original
destination connection id (the destination connection id of the Initial
being answered). -/
theorem retry_reply_on_rejected_token
    (s : quic.BaseServer) (p : quic.ReceivedPacket) (hdr : quic.Header)
    (env : quic.InitialEnv)
    (hlen : ¬(hdr.token.length = 0 ∧
      hdr.destConnectionID.length < quic.MinConnectionIDLenInitial))
    (hacc : quic.configAcceptToken s.config p.remoteAddr (quic.tokenFor hdr env)
      env.now = false)
    (hcid : env.retryConnID.length = s.config.ConnectionIDLength) :
    quic.handleInitialImpl s p hdr env =
      .ok { state := s, session := none, dispatchTo := none,
            reply := some (.retry
              { hdr := { isLongHeader := true, type := .retry, version := hdr.version,
                         srcConnectionID := env.retryConnID,
                         destConnectionID := hdr.srcConnectionID,
                         token := { remoteAddr := p.remoteAddr, sentTime := env.now,
                                    origDestConnID := hdr.destConnectionID } }
                integrityTag :=
                  { packet := { isLongHeader := true, type := .retry,
                                version := hdr.version,
                                srcConnectionID := env.retryConnID,
                                destConnectionID := hdr.srcConnectionID,
                                token := { remoteAddr := p.remoteAddr,
                                           sentTime := env.now,
                                           origDestConnID := hdr.destConnectionID } }
                    origDestConnID := hdr.destConnectionID }
                tagLen := quic.RetryIntegrityTagLen } p.remoteAddr) } ∧
    env.retryConnID.length = s.config.ConnectionIDLength := by
  refine ⟨?_, hcid⟩
  unfold quic.handleInitialImpl
  rw [if_neg hlen, if_pos hacc]
  rfl

/-- Witness for C2 at concrete inputs: the default populated config rejects
an Initial with no token, so a Retry is scheduled. -/
theorem retry_reply_on_rejected_token_witness :
    quic.handleInitialImpl quic.retryTestServer quic.testPacket quic.testHeader
      quic.testEnv =
      .ok { state := quic.retryTestServer, session := none, dispatchTo := none,
            reply := some (.retry
              { hdr := { isLongHeader := true, type := .retry,
                         version := quic.testHeader.version,
                         srcConnectionID := quic.testEnv.retryConnID,
                         destConnectionID := quic.testHeader.srcConnectionID,
                         token := { remoteAddr := quic.testPacket.remoteAddr,
                                    sentTime := quic.testEnv.now,
                                    origDestConnID := quic.testHeader.destConnectionID } }
                integrityTag :=
                  { packet := { isLongHeader := true, type := .retry,
                                version := quic.testHeader.version,
                                srcConnectionID := quic.testEnv.retryConnID,
                                destConnectionID := quic.testHeader.srcConnectionID,
                                token := { remoteAddr := quic.testPacket.remoteAddr,
                                           sentTime := quic.testEnv.now,
                                           origDestConnID := quic.testHeader.destConnectionID } }
                    origDestConnID := quic.testHeader.destConnectionID }
                tagLen := quic.RetryIntegrityTagLen } quic.testPacket.remoteAddr) } ∧
    quic.testEnv.retryConnID.length = quic.retryTestServer.config.ConnectionIDLength :=
  retry_reply_on_rejected_token quic.retryTestServer quic.testPacket quic.testHeader
    quic.testEnv (by decide) (by decide) (by decide)

/-- Claim C4: for every Initial that passes the accept-token check, when the
atomically read accept-queue counter is at least MaxAcceptQueueSize, no
session is created and a server-busy reply is scheduled: a long-header
Initial with packet number length 4 carrying a single CONNECTION_CLOSE
frame with error code SERVER_BUSY, sealed with the Initial AEAD derived
from the clients destination connection id (server perspective), with
header protection applied to the packet-number bytes using the 16 sample
bytes starting at pnOffset + 4. -/
theorem server_busy_reply_on_full_accept_queue
    (s : quic.BaseServer) (p : quic.ReceivedPacket) (hdr : quic.Header)
    (env : quic.InitialEnv)
    (hlen : ¬(hdr.token.length = 0 ∧
      hdr.destConnectionID.length < quic.MinConnectionIDLenInitial))
    (hacc : quic.configAcceptToken s.config p.remoteAddr (quic.tokenFor hdr env)
      env.now = true)
    (hq : quic.MaxAcceptQueueSize ≤ s.sessionQueueLen) :
    quic.handleInitialImpl s p hdr env =
      .ok { state := s, session := none, dispatchTo := none,
            reply := some (.serverBusy
              { isLongHeader := true, type := .initial, version := hdr.version,
                srcConnectionID := hdr.destConnectionID,
                destConnectionID := hdr.srcConnectionID,
                packetNumberLen := 4,
                frames := [{ errorCode := .serverBusy }],
                sealConnID := hdr.destConnectionID,
                sealPerspective := .server,
                payloadOffset := env.busyHeaderLen,
                pnOffset := env.busyHeaderLen - 4,
                sampleOffset := env.busyHeaderLen - 4 + 4,
                sampleLen := 16 } p.remoteAddr) } := by
  unfold quic.handleInitialImpl
  rw [if_neg hlen, hacc, if_neg (by decide : ¬(true = false)), if_pos hq]
  rfl

/-- Witness for C4 at concrete inputs: a server whose queue counter is 32. -/
theorem server_busy_reply_on_full_accept_queue_witness :
    quic.handleInitialImpl quic.busyTestServer quic.testPacket quic.testHeader
      quic.testEnv =
      .ok { state := quic.busyTestServer, session := none, dispatchTo := none,
            reply := some (.serverBusy
              { isLongHeader := true, type := .initial,
                version := quic.testHeader.version,
                srcConnectionID := quic.testHeader.destConnectionID,
                destConnectionID := quic.testHeader.srcConnectionID,
                packetNumberLen := 4,
                frames := [{ errorCode := .serverBusy }],
                sealConnID := quic.testHeader.destConnectionID,
                sealPerspective := .server,
                payloadOffset := quic.testEnv.busyHeaderLen,
                pnOffset := quic.testEnv.busyHeaderLen - 4,
                sampleOffset := quic.testEnv.busyHeaderLen - 4 + 4,
                sampleLen := 16 } quic.testPacket.remoteAddr) } :=
  server_busy_reply_on_full_accept_queue quic.busyTestServer quic.testPacket
    quic.testHeader quic.testEnv (by decide) (by decide) (by decide)

/-- Claim C3: for every inbound long-header packet of at least 1200 bytes
whose version is not in the configured supported set, no session is created
and exactly one Version Negotiation datagram is scheduled to the source
address, whose destination connection id is the clients source connection
id, whose source connection id is the clients destination connection id,
and whose version list equals the configured versions, which therefore do
not include the clients version. -/
theorem version_negotiation_on_unsupported_version
    (s : quic.BaseServer) (p : quic.ReceivedPacket) (hdr : quic.Header)
    (env : quic.InitialEnv)
    (hlen : ¬p.data.length < quic.MinInitialPacketSize)
    (hlong : hdr.isLongHeader = true)
    (hver : quic.IsSupportedVersion s.config.Versions hdr.version = false) :
    quic.handlePacketImpl s p (some hdr) env =
      { state := s, session := none, dispatchTo := none,
        reply := some (.versionNegotiation
          { isLongHeader := true, version := 0,
            destConnectionID := hdr.srcConnectionID,
            srcConnectionID := hdr.destConnectionID,
            supportedVersions := s.config.Versions } p.remoteAddr),
        passedOn := false } ∧
    s.config.Versions.contains hdr.version = false := by
  refine ⟨?_, hver⟩
  unfold quic.handlePacketImpl
  rw [if_neg hlen]
  simp only [hlong, hver]
  rfl

set_option maxRecDepth 10000 in
/-- Witness for C3 at concrete inputs: a 1200-byte packet carrying version
0x1a2a3a4a against the default supported list. -/
theorem version_negotiation_on_unsupported_version_witness :
    quic.handlePacketImpl quic.testServer quic.testPacket (some quic.vnTestHeader)
      quic.testEnv =
      { state := quic.testServer, session := none, dispatchTo := none,
        reply := some (.versionNegotiation
          { isLongHeader := true, version := 0,
            destConnectionID := quic.vnTestHeader.srcConnectionID,
            srcConnectionID := quic.vnTestHeader.destConnectionID,
            supportedVersions := quic.testServer.config.Versions }
          quic.testPacket.remoteAddr),
        passedOn := false } ∧
    quic.testServer.config.Versions.contains quic.vnTestHeader.version = false :=
  version_negotiation_on_unsupported_version quic.testServer quic.testPacket
    quic.vnTestHeader quic.testEnv
    (by decide) (by decide) (by decide)

/-- Claim C5: every unknown-cid datagram shorter than 1200 bytes is dropped
before parsing: no reply is scheduled, no session is created, the state is
unchanged, handlePacketImpl returns false, and the intake loop therefore
releases the packet buffer; the same holds when the header fails to parse
or carries a short header. -/
theorem small_malformed_short_packets_dropped
    (s : quic.BaseServer) (p : quic.ReceivedPacket)
    (parseResult : Option quic.Header) (env : quic.InitialEnv)
    (h : p.data.length < quic.MinInitialPacketSize ∨ parseResult = none ∨
      (∃ hdr, parseResult = some hdr ∧ hdr.isLongHeader = false)) :
    quic.handlePacketImpl s p parseResult env = quic.dropResult s ∧
    (quic.handlePacketImpl s p parseResult env).reply = none ∧
    (quic.handlePacketImpl s p parseResult env).session = none ∧
    (quic.handlePacketImpl s p parseResult env).state = s ∧
    (quic.handlePacketImpl s p parseResult env).passedOn = false ∧
    quic.runReleasesBuffer (quic.handlePacketImpl s p parseResult env) = true := by
  have hmain : quic.handlePacketImpl s p parseResult env = quic.dropResult s := by
    rcases h with h | h | ⟨hdr, hp, hsh⟩
    · unfold quic.handlePacketImpl
      simp [h]
    · unfold quic.handlePacketImpl
      by_cases hl : p.data.length < quic.MinInitialPacketSize <;> simp [hl, h]
    · unfold quic.handlePacketImpl
      by_cases hl : p.data.length < quic.MinInitialPacketSize <;> simp [hl, hp, hsh]
  exact ⟨hmain, by rw [hmain]; rfl, by rw [hmain]; rfl, by rw [hmain]; rfl,
    by rw [hmain]; rfl, by rw [hmain]; rfl⟩

set_option maxRecDepth 10000 in
/-- Witness for C5 at concrete inputs: an 1199-byte datagram. -/
theorem small_malformed_short_packets_dropped_witness :
    quic.handlePacketImpl quic.testServer quic.shortPacket none quic.testEnv =
      quic.dropResult quic.testServer ∧
    (quic.handlePacketImpl quic.testServer quic.shortPacket none quic.testEnv).reply =
      none ∧
    (quic.handlePacketImpl quic.testServer quic.shortPacket none
      quic.testEnv).session = none ∧
    (quic.handlePacketImpl quic.testServer quic.shortPacket none quic.testEnv).state =
      quic.testServer ∧
    (quic.handlePacketImpl quic.testServer quic.shortPacket none
      quic.testEnv).passedOn = false ∧
    quic.runReleasesBuffer
      (quic.handlePacketImpl quic.testServer quic.shortPacket none quic.testEnv) =
      true :=
  small_malformed_short_packets_dropped quic.testServer quic.shortPacket none
    quic.testEnv (Or.inl (by decide))

/-- Claim C8 (amended): listen fails fast exactly on a nil tls config or an
invalid configured version; it performs no ALPN check. -/
theorem listen_config_validation (tlsConf : Option quic.TLSConfig)
    (config : Option quic.Config) (acceptEarly : Bool) :
    quic.exceptIsOk (quic.listen tlsConf config acceptEarly) =
      (tlsConf.isSome &&
        (quic.populateServerConfig config).Versions.all quic.IsValidVersion) := by
  cases tlsConf with
  | none => rfl
  | some t =>
    simp only [quic.listen]
    cases hf : (quic.populateServerConfig config).Versions.find?
        (fun v => quic.IsValidVersion v = false) with
    | none =>
      show true = (quic.populateServerConfig config).Versions.all quic.IsValidVersion
      symm
      rw [List.all_eq_true]
      intro v hv
      have h2 := List.find?_eq_none.mp hf v hv
      simpa using h2
    | some v =>
      show false = (quic.populateServerConfig config).Versions.all quic.IsValidVersion
      symm
      rw [List.all_eq_false]
      exact ⟨v, List.mem_of_find?_eq_some hf, by simpa using List.find?_some hf⟩

/-- Counterexample for C8 as stated: a tls config advertising no ALPN
protocol is accepted by listen, so listen does not return an error when the
tls config fails to advertise ALPN. -/
theorem listen_accepts_missing_alpn :
    quic.exceptIsOk (quic.listen (some { nextProtos := [] }) none false) = true ∧
    ({ nextProtos := [] } : quic.TLSConfig).nextProtos = [] := by
  constructor
  · decide
  · rfl

/-- Helper: in every reachable listener state the counter equals the number
of offered-but-unconsumed sessions. -/
theorem reachable_counter_eq_offered {st : quic.ListenerTS}
    (h : quic.Reachable st) : st.counter = (st.offered.length : Int) := by
  induction h with
  | init => rfl
  | next hr hstep ih =>
    rename_i st1 st2 e
    cases e <;> simp only [quic.step] at hstep
    case newConn =>
      split at hstep
      · cases hstep
        simpa using ih
      · cases hstep
    case handshakeComplete sid =>
      split at hstep
      · cases hstep
        simp only [List.length_cons]
        omega
      · cases hstep
    case handshakeFail sid =>
      split at hstep
      · cases hstep
        simpa using ih
      · cases hstep
    case offerWithdrawn sid =>
      split at hstep
      · rename_i hmem
        cases hstep
        simp only [List.length_erase_of_mem hmem]
        have hpos : 0 < st1.offered.length :=
          List.length_pos.mpr (List.ne_nil_of_mem hmem)
        omega
      · cases hstep
    case acceptSession sid =>
      split at hstep
      · rename_i hmem
        cases hstep
        simp only [List.length_erase_of_mem hmem]
        have hpos : 0 < st1.offered.length :=
          List.length_pos.mpr (List.ne_nil_of_mem hmem)
        omega
      · cases hstep
    case acceptError =>
      split at hstep
      · cases hstep
        exact ih
      · cases hstep
    case close =>
      split at hstep
      · cases hstep
        exact ih
      · cases hstep
        simpa using ih
    case fatalError e =>
      split at hstep
      · cases hstep
        exact ih
      · cases hstep
        simpa using ih

/-- Claim C6 (amended): in every reachable listener state the counter
sessionQueueLen equals the number of sessions offered on the session queue
and not yet consumed or withdrawn, and a new session is admitted only while
the counter is below MaxAcceptQueueSize; the counter itself can exceed
MaxAcceptQueueSize, because admitted sessions increment it only when their
handshake completes. -/
theorem accept_queue_counter_invariant (st : quic.ListenerTS)
    (h : quic.Reachable st) :
    st.counter = (st.offered.length : Int) ∧
    (quic.step st .newConn ≠ none → st.counter < quic.MaxAcceptQueueSize) := by
  refine ⟨reachable_counter_eq_offered h, ?_⟩
  intro hen
  by_cases hc : st.counter < quic.MaxAcceptQueueSize
  · exact hc
  · simp [quic.step, hc] at hen

/-- Witness for C6 (amended) at the initial listener state. -/
theorem accept_queue_counter_invariant_witness :
    quic.initialListener.counter = (quic.initialListener.offered.length : Int) ∧
    (quic.step quic.initialListener .newConn ≠ none →
      quic.initialListener.counter < quic.MaxAcceptQueueSize) :=
  accept_queue_counter_invariant quic.initialListener quic.Reachable.init

/-- Counterexample for C6 as stated: 33 admissions each pass the queue check
while the counter is still 0; once all 33 handshakes complete the counter
reaches 33, exceeding MaxAcceptQueueSize = 32, in a reachable state. -/
theorem accept_queue_counter_can_exceed_max :
    ((quic.runTrace quic.initialListener quic.overflowTrace).map
      (fun st => st.counter)) = some 33 ∧
    ((quic.runTrace quic.initialListener quic.overflowTrace).map
      (fun st => decide (st.counter ≤ quic.MaxAcceptQueueSize))) = some false := by
  constructor
  · decide
  · decide

/-- Helper: every reachable closed listener state has a recorded error. -/
theorem reachable_closed_has_error {st : quic.ListenerTS}
    (h : quic.Reachable st) : st.closed = true → st.serverError.isSome = true := by
  induction h with
  | init => intro hc; simp [quic.initialListener] at hc
  | next hr hstep ih =>
    rename_i st1 st2 e
    cases e <;> simp only [quic.step] at hstep
    case newConn =>
      split at hstep
      · cases hstep; exact ih
      · cases hstep
    case handshakeComplete sid =>
      split at hstep
      · cases hstep; exact ih
      · cases hstep
    case handshakeFail sid =>
      split at hstep
      · cases hstep; exact ih
      · cases hstep
    case offerWithdrawn sid =>
      split at hstep
      · cases hstep; exact ih
      · cases hstep
    case acceptSession sid =>
      split at hstep
      · cases hstep; exact ih
      · cases hstep
    case acceptError =>
      split at hstep
      · cases hstep; exact ih
      · cases hstep
    case close =>
      split at hstep
      · cases hstep; exact ih
      · cases hstep
        intro hc
        simp
    case fatalError e =>
      split at hstep
      · cases hstep; exact ih
      · cases hstep
        intro hc
        simp

/-- Claim C7 (amended): in every reachable closed listener state the stored
serverError is present (Close records the message server closed when no
fatal error was recorded earlier); an accept call can deliver only a
session whose handoff was already pending on the rendezvous channel; and
when no handoff is pending every accept outcome is the serverError. -/
theorem accept_after_close (st : quic.ListenerTS) (h : quic.Reachable st)
    (hc : st.closed = true) :
    st.serverError.isSome = true ∧
    (∀ sid, quic.step st (.acceptSession sid) ≠ none → sid ∈ st.offered) ∧
    (st.offered = [] → ∀ sid, quic.step st (.acceptSession sid) = none) ∧
    (∀ st0 : quic.ListenerTS, st0.closed = false → st0.serverError = none →
      quic.step st0 .close =
        some { st0 with closed := true, serverError := some "server closed" }) := by
  refine ⟨reachable_closed_has_error h hc, ?_, ?_, ?_⟩
  · intro sid hen
    by_cases hm : sid ∈ st.offered
    · exact hm
    · simp [quic.step, hm] at hen
  · intro hof sid
    simp [quic.step, hof]
  · intro st0 hc0 he0
    simp [quic.step, hc0, he0]

/-- Witness for C7 (amended) at the state reached by closing the fresh
listener. -/
theorem accept_after_close_witness :
    quic.closedListener.serverError.isSome = true ∧
    (∀ sid, quic.step quic.closedListener (.acceptSession sid) ≠ none →
      sid ∈ quic.closedListener.offered) ∧
    (quic.closedListener.offered = [] →
      ∀ sid, quic.step quic.closedListener (.acceptSession sid) = none) ∧
    (∀ st0 : quic.ListenerTS, st0.closed = false → st0.serverError = none →
      quic.step st0 .close =
        some { st0 with closed := true, serverError := some "server closed" }) :=
  accept_after_close quic.closedListener
    (@quic.Reachable.next quic.initialListener quic.closedListener quic.Event.close
      quic.Reachable.init rfl) rfl

/-- Counterexample for C7 as stated: after Close has returned, a session
whose handoff was already pending on the rendezvous channel can still be
delivered by accept, because the Go select in accept chooses among ready
cases without priority; in the reachable closed state below the
acceptSession event is enabled, so not every accept call after Close
returns the serverError. -/
theorem accept_after_close_can_return_session :
    quic.runTrace quic.initialListener quic.acceptAfterCloseTrace =
      some quic.closedWithOffer ∧
    quic.closedWithOffer.closed = true ∧
    (quic.step quic.closedWithOffer (.acceptSession 0)).isSome = true := by
  refine ⟨?_, ?_, ?_⟩
  · decide
  · decide
  · decide
